import Mathlib

/-!
# Verification of the company research agent pipeline

Shallow embedding of `src/research_agent.py` (class `CompanyResearchAgent`)
and the batch research loop of `src/app.py`.

External collaborators (the DuckDuckGo search backend, the trafilatura
page fetcher/extractor, and the OpenAI text-understanding service) are
modelled as oracle functions collected in an `Env` record: the code's
behaviour is a pure function of the company name and of what every
collaborator call would return.  Python floats are modelled as rationals
(`ℚ`); Python exceptions raised by collaborators are modelled as explicit
outcome constructors, since every call site in the source wraps them in
`try/except`.
-/

namespace ResearchAgent

/-- A normalized search hit as produced by `search_web`:
`{'title': ..., 'body': ..., 'link': ...}`. -/
structure SearchHit where
  title : String
  body : String
  link : String
  deriving DecidableEq, Repr

instance : Inhabited SearchHit := ⟨⟨"", "", ""⟩⟩

/-- One raw entry of the DuckDuckGo backend response (`search_results["data"]`).
`r.get("url")` returning `None` and returning `""` are both falsy in Python
and are collapsed to the empty string; `r.get('title', '')` and
`r.get('description', '')` default to the empty string. -/
structure RawHit where
  url : String
  title : String
  description : String
  deriving DecidableEq, Repr

/-- Outcome of `self.ddg_api.search(query)` as observed by `search_web`:
either a failure (the call raised, or `search_results.get("success")` is
falsy) or a successful response with its `data` list (a falsy/absent
`data` field is the empty list). -/
inductive BackendResult where
  | failure
  | success (data : List RawHit)
  deriving DecidableEq, Repr

/-- Outcome of the per-hit page retrieval
`trafilatura.fetch_url(url)` / `trafilatura.extract(downloaded)`:
* `raises` — an exception was raised during fetch or extraction
  (the `except Exception` branch of the per-hit `try`);
* `noDownload` — `fetch_url` returned a falsy value (its non-raising
  failure mode), so `if downloaded:` is false;
* `extractedText t` — `fetch_url` returned a truthy page and
  `trafilatura.extract` produced `t`; `extract` returning `None` or an
  empty string (both falsy, triggering the `or r.get("description", "")`
  fallback) is modelled as `t = ""`. -/
inductive FetchOutcome where
  | raises
  | noDownload
  | extractedText (t : String)
  deriving DecidableEq, Repr

/-- The body of the `for r in search_results["data"][:num_results]` loop of
`search_web`: skip entries with a falsy `url`; otherwise fetch the page
and, on a truthy download, append the hit with the extracted text
(falling back to the description when the extract is falsy); on an
exception append the hit with the description as body; on a falsy
download (`if downloaded:` false) append nothing. -/
def searchStep (fetch : String → FetchOutcome) (results : List SearchHit)
    (r : RawHit) : List SearchHit :=
  if r.url = "" then results
  else
    match fetch r.url with
    | .raises => results ++ [⟨r.title, r.description, r.url⟩]
    | .noDownload => results
    | .extractedText t =>
        results ++ [⟨r.title, if t = "" then r.description else t, r.url⟩]

/-- `CompanyResearchAgent.search_web(query, num_results)`, as a function of
the backend response for the query and of the per-URL fetch outcomes.
On backend failure (raised exception or falsy `success` field) return
`[]`; otherwise run the per-hit loop over `data[:num_results]` starting
from an empty `results` list. -/
def search_web (fetch : String → FetchOutcome) (backend : BackendResult)
    (numResults : Nat := 5) : List SearchHit :=
  match backend with
  | .failure => []
  | .success data => (data.take numResults).foldl (searchStep fetch) []

/-- The per-raw-hit contribution to the result list of `search_web`:
`none` when the hit is skipped, `some hit` when it is appended. -/
def hitOf (fetch : String → FetchOutcome) (r : RawHit) : Option SearchHit :=
  if r.url = "" then none
  else
    match fetch r.url with
    | .raises => some ⟨r.title, r.description, r.url⟩
    | .noDownload => none
    | .extractedText t => some ⟨r.title, if t = "" then r.description else t, r.url⟩

/-- The confidence value found in the text-understanding service's reply:
either a numeric value (anything `float(...)` accepts) or a value on which
`float(...)` raises `ValueError`/`TypeError`, such as the string `"high"`. -/
inductive ConfValue where
  | num (q : ℚ)
  | nonNumeric (s : String)
  deriving DecidableEq, Repr

/-- Outcome of the GPT call plus `json.loads`, as observed by
`analyze_with_gpt`:
* `failure` — the API call or `json.loads` raised;
* `notDict` — the parsed JSON is not a dictionary
  (`isinstance(result, dict)` is false);
* `dict` — a dictionary, with flags recording whether the `data` and
  `confidence` keys are present and, when present, their values. -/
inductive GPTOutcome where
  | failure
  | notDict
  | dict (hasData : Bool) (data : String) (hasConfidence : Bool) (confidence : ConfValue)
  deriving DecidableEq, Repr

/-- The `{data, confidence}` record `analyze_with_gpt` returns. -/
structure AnalysisResult where
  data : String
  confidence : ℚ
  deriving DecidableEq, Repr

/-- `float(result['confidence'])` followed by
`max(0.0, min(1.0, ...))`, with the `except (ValueError, TypeError)`
branch setting the confidence to `0.0`. -/
def coerceClamp : ConfValue → ℚ
  | .num q => max 0 (min 1 q)
  | .nonNumeric _ => 0

/-- `CompanyResearchAgent.analyze_with_gpt`, as a function of the service
outcome.  A service failure, a non-dictionary reply, or a missing
`data`/`confidence` key all raise inside the `try` and are caught by the
outer `except Exception`, which returns the sentinel
`{'data': 'Analysis failed', 'confidence': 0.0}`; otherwise the reply's
confidence is coerced and clamped to `[0, 1]`. -/
def analyze_with_gpt : GPTOutcome → AnalysisResult
  | .failure => ⟨"Analysis failed", 0⟩
  | .notDict => ⟨"Analysis failed", 0⟩
  | .dict hasData data hasConfidence confidence =>
    if hasData && hasConfidence then ⟨data, coerceClamp confidence⟩
    else ⟨"Analysis failed", 0⟩

/-- The three analysis types (`'profile'`, `'sector'`, `'objectives'`)
passed to `analyze_with_gpt` and the three facets researched. -/
inductive Facet where
  | profile
  | sector
  | objectives
  deriving DecidableEq, Repr

/-- The `{data, source, confidence}` record returned per facet. -/
structure FacetResult where
  data : String
  source : String
  confidence : ℚ
  deriving DecidableEq, Repr

/-- The oracle environment: what each collaborator call would return.
`backend q` is the DuckDuckGo response for query `q`; `fetch u` the page
retrieval outcome for URL `u`; `gpt content company facet` the
text-understanding outcome for the given combined content, company name
and analysis type. -/
structure Env where
  backend : String → BackendResult
  fetch : String → FetchOutcome
  gpt : String → String → Facet → GPTOutcome

/-- `self.search_web(query)` inside a facet search: the composition of
`search_web` with the environment's backend and fetcher, at the default
`num_results = 5`. -/
def searchWebEnv (env : Env) (q : String) : List SearchHit :=
  search_web env.fetch (env.backend q) 5

/-- `"\n".join([r['body'] for r in results[:3]])`. -/
def combinedText (hits : List SearchHit) : String :=
  String.intercalate "\n" ((hits.take 3).map SearchHit.body)

/-- A facet search outcome together with its observable call trace:
the queries passed to `search_web` in order, and the number of
`analyze_with_gpt` invocations. -/
structure FacetOutcome where
  result : FacetResult
  searched : List String
  gptCalls : Nat
  deriving DecidableEq, Repr

/-- The query-template loop shared verbatim by `search_company_profile`,
`search_company_sector` and `search_company_objectives`: for each query in
order call `search_web`; if it returned hits, combine the top-3 bodies,
call `analyze_with_gpt`, and if the confidence is `>= 0.3` return
`{data, source: hits[0]['link'], confidence}` immediately; otherwise
(after the rate-limiting sleep, which has no observable effect here)
continue with the next query; if no query is accepted return the facet's
`{data: notFoundMsg, source: 'N/A', confidence: 0.0}` sentinel. -/
def facetLoop (env : Env) (company : String) (facet : Facet) (notFoundMsg : String) :
    List String → FacetOutcome
  | [] => ⟨⟨notFoundMsg, "N/A", 0⟩, [], 0⟩
  | q :: rest =>
    match searchWebEnv env q with
    | [] =>
      let o := facetLoop env company facet notFoundMsg rest
      ⟨o.result, q :: o.searched, o.gptCalls⟩
    | h :: hs =>
      let analysis := analyze_with_gpt (env.gpt (combinedText (h :: hs)) company facet)
      if analysis.confidence ≥ 3/10 then
        ⟨⟨analysis.data, h.link, analysis.confidence⟩, [q], 1⟩
      else
        let o := facetLoop env company facet notFoundMsg rest
        ⟨o.result, q :: o.searched, o.gptCalls + 1⟩

/-- The ordered query templates of `search_company_profile`. -/
def profileTemplates (name : String) : List String :=
  [name, name ++ " Wikipedia", name ++ " company", name ++ " about"]

/-- The ordered query templates of `search_company_sector`. -/
def sectorTemplates (name : String) : List String :=
  [name ++ " Wikipedia", name, name ++ " sector", name ++ " industry"]

/-- The ordered query templates of `search_company_objectives`. -/
def objectivesTemplates (name : String) : List String :=
  [name ++ " news", name ++ " plans", name ++ " strategy", name ++ " future"]

/-- `CompanyResearchAgent.search_company_profile`.  Its `try` body never
raises in the model (every sub-call absorbs collaborator failures), so
the `except` branch returning `{'data': 'Error retrieving profile', ...}`
is unreachable and the body is the template loop. -/
def search_company_profile (env : Env) (name : String) : FacetOutcome :=
  facetLoop env name .profile "No reliable profile information found"
    (profileTemplates name)

/-- `CompanyResearchAgent.search_company_sector`. -/
def search_company_sector (env : Env) (name : String) : FacetOutcome :=
  facetLoop env name .sector "No reliable sector information found"
    (sectorTemplates name)

/-- `CompanyResearchAgent.search_company_objectives`. -/
def search_company_objectives (env : Env) (name : String) : FacetOutcome :=
  facetLoop env name .objectives "No reliable objectives information found"
    (objectivesTemplates name)

/-- Python's `str.strip()` with no arguments: remove leading and trailing
whitespace characters. -/
def pyStrip (s : String) : String :=
  ⟨((s.data.dropWhile Char.isWhitespace).reverse.dropWhile Char.isWhitespace).reverse⟩

/-- The analysis a facet search performs for one query: `analyze_with_gpt`
applied to the combined top-3 bodies of that query's `search_web` result
(only ever invoked by the loop when that result is non-empty). -/
def facetAnalysis (env : Env) (company : String) (facet : Facet) (q : String) :
    AnalysisResult :=
  analyze_with_gpt (env.gpt (combinedText (searchWebEnv env q)) company facet)

/-- The `{'profile': ..., 'sector': ..., 'objectives': ...}` record
returned by `research_company`. -/
structure CompanyResult where
  profile : FacetResult
  sector : FacetResult
  objectives : FacetResult
  deriving DecidableEq, Repr

/-- The argument passed to `research_company`: either a Python string or
a value of any other type (for which `isinstance(company_name, str)` is
false). -/
inductive CompanyInput where
  | str (s : String)
  | nonString
  deriving DecidableEq, Repr

/-- The outcome of `research_company` together with its call trace. An
`.error` value models the `ValueError("Invalid company name provided")`
raised by input validation. -/
structure ResearchTrace where
  result : Except String CompanyResult
  searched : List String
  gptCalls : Nat
  deriving Repr

/-- `CompanyResearchAgent.research_company`.  Validation
(`if not company_name or not isinstance(company_name, str)`) raises for
the empty string and for every non-string value, before any collaborator
call; otherwise the name is stripped and the three facet searches run in
order (profile, sector, objectives).  The `x if x else {...'Not found'...}`
fallbacks are dead (each facet search returns a truthy dict), and the
outer `except` re-raising `"Research failed for ..."` is unreachable
because the facet searches never raise. -/
def research_company (env : Env) (input : CompanyInput) : ResearchTrace :=
  match input with
  | .nonString => ⟨.error "Invalid company name provided", [], 0⟩
  | .str s =>
    if s = "" then ⟨.error "Invalid company name provided", [], 0⟩
    else
      let name := pyStrip s
      let p := search_company_profile env name
      let sec := search_company_sector env name
      let o := search_company_objectives env name
      ⟨.ok ⟨p.result, sec.result, o.result⟩,
       p.searched ++ sec.searched ++ o.searched,
       p.gptCalls + sec.gptCalls + o.gptCalls⟩

end ResearchAgent

namespace ResearchApp

open ResearchAgent

/-- One row of the batch results table of `src/app.py`: either a regular
row carrying the company name and the three facet results, from which
the ten columns `Company`, `Profile`, `Profile Confidence`, `Sector`,
`Sector Confidence`, `Objectives`, `Objectives Confidence`,
`Profile Source`, `Sector Source`, `Objectives Source` are populated
(each facet result always carries all of `data`, `source` and
`confidence`, so every `.get` succeeds), or an error row carrying only
`Company` and `Error`. -/
inductive BatchRow where
  | ok (company : String) (profile sector objectives : FacetResult)
  | err (company : String) (error : String)
  deriving DecidableEq, Repr

/-- Whether a batch row is a regular (non-Error) row. -/
def BatchRow.regular : BatchRow → Bool
  | .ok _ _ _ _ => true
  | .err _ _ => false

/-- The `try` body of the per-company batch loop: it calls
`agent.search_company_profile`, `agent.search_company_sector` and
`agent.search_company_objectives` directly (it does not call
`research_company`, so no input validation runs), and each of those
absorbs every collaborator failure internally, so the body always
produces the three facet results and never raises. -/
def batchBody (env : Env) (company : String) :
    Except String (FacetResult × FacetResult × FacetResult) :=
  .ok ⟨(search_company_profile env company).result,
       (search_company_sector env company).result,
       (search_company_objectives env company).result⟩

/-- One iteration of the batch loop: the `try` body on success appends a
regular row, the `except Exception` branch appends a row populated only
in `Company` and `Error`. -/
def batchRow (env : Env) (company : String) : BatchRow :=
  match batchBody env company with
  | .ok (p, s, o) => .ok company p s o
  | .error e => .err company e

/-- The `for idx, company in enumerate(companies)` loop of the batch
flow: one row per company, in input order. -/
def batchRows (env : Env) (companies : List String) : List BatchRow :=
  companies.map (batchRow env)

end ResearchApp

namespace ResearchAgent

/-- An environment in which every collaborator fails: the search backend
reports failure for every query, every page fetch raises, and the
text-understanding service fails on every call. -/
def failEnv : Env where
  backend := fun _ => .failure
  fetch := fun _ => .raises
  gpt := fun _ _ _ => .failure

/-- An environment used as a concrete witness: the query `"B"` returns one
backend hit (whose page fetch raises, so its body is the snippet), every
other query fails, and the text-understanding service always answers with
data `"Acme makes widgets"` and confidence `0.9`. -/
def acceptEnv : Env where
  backend := fun q =>
    if q = "B" then .success [⟨"http://x.com", "Acme", "snippet"⟩] else .failure
  fetch := fun _ => .raises
  gpt := fun _ _ _ => .dict true "Acme makes widgets" true (.num (9/10))

end ResearchAgent

namespace ResearchAgent

/-! ## Helper lemmas -/

theorem coerceClamp_nonneg (c : ConfValue) : 0 ≤ coerceClamp c := by
  cases c with
  | num q => exact le_max_left 0 _
  | nonNumeric s => exact le_refl 0

theorem coerceClamp_le_one (c : ConfValue) : coerceClamp c ≤ 1 := by
  cases c with
  | num q => exact max_le (by norm_num) (min_le_left 1 q)
  | nonNumeric s => norm_num [coerceClamp]

theorem analyze_conf_nonneg (o : GPTOutcome) :
    0 ≤ (analyze_with_gpt o).confidence := by
  cases o with
  | failure => simp [analyze_with_gpt]
  | notDict => simp [analyze_with_gpt]
  | dict hd d hc c =>
    cases hd <;> cases hc <;> simp [analyze_with_gpt, coerceClamp_nonneg]

theorem analyze_conf_le_one (o : GPTOutcome) :
    (analyze_with_gpt o).confidence ≤ 1 := by
  cases o with
  | failure => simp [analyze_with_gpt]
  | notDict => simp [analyze_with_gpt]
  | dict hd d hc c =>
    cases hd <;> cases hc <;> simp [analyze_with_gpt, coerceClamp_le_one]

theorem facetLoop_conf_nonneg (env : Env) (c : String) (f : Facet) (m : String) :
    ∀ qs : List String, 0 ≤ (facetLoop env c f m qs).result.confidence := by
  intro qs
  induction qs with
  | nil => simp [facetLoop]
  | cons q rest ih =>
    cases hq : searchWebEnv env q with
    | nil => simpa [facetLoop, hq] using ih
    | cons hd tl =>
      by_cases hc :
          3/10 ≤ (analyze_with_gpt (env.gpt (combinedText (hd :: tl)) c f)).confidence
      · simp [facetLoop, hq, hc, analyze_conf_nonneg]
      · simpa [facetLoop, hq, hc] using ih

theorem facetLoop_conf_le_one (env : Env) (c : String) (f : Facet) (m : String) :
    ∀ qs : List String, (facetLoop env c f m qs).result.confidence ≤ 1 := by
  intro qs
  induction qs with
  | nil => simp [facetLoop]
  | cons q rest ih =>
    cases hq : searchWebEnv env q with
    | nil => simpa [facetLoop, hq] using ih
    | cons hd tl =>
      by_cases hc :
          3/10 ≤ (analyze_with_gpt (env.gpt (combinedText (hd :: tl)) c f)).confidence
      · simp [facetLoop, hq, hc, analyze_conf_le_one]
      · simpa [facetLoop, hq, hc] using ih

theorem facetLoop_all_empty (env : Env) (c : String) (f : Facet) (m : String) :
    ∀ qs : List String, (∀ q ∈ qs, searchWebEnv env q = []) →
      facetLoop env c f m qs = ⟨⟨m, "N/A", 0⟩, qs, 0⟩ := by
  intro qs
  induction qs with
  | nil => intro _; rfl
  | cons q rest ih =>
    intro h
    have hq : searchWebEnv env q = [] := h q (by simp)
    have hrest := ih (fun t ht => h t (by simp [ht]))
    simp [facetLoop, hq, hrest]

theorem searchStep_eq (fetch : String → FetchOutcome) (acc : List SearchHit)
    (r : RawHit) :
    searchStep fetch acc r = acc ++ (hitOf fetch r).toList := by
  unfold searchStep hitOf
  split
  · simp
  · cases fetch r.url <;> simp

theorem searchStep_foldl (fetch : String → FetchOutcome) (l : List RawHit) :
    ∀ acc : List SearchHit,
      l.foldl (searchStep fetch) acc = acc ++ l.filterMap (hitOf fetch) := by
  induction l with
  | nil => simp
  | cons r rest ih =>
    intro acc
    rw [List.foldl_cons, searchStep_eq, ih, List.filterMap_cons]
    cases hitOf fetch r <;> simp

/-! ## Claims -/

/-- C6: for every text-understanding outcome that is a service error, is
not a keyed record, or is a record missing the `data` key or the
`confidence` key, `analyze_with_gpt` returns the sentinel
`{data: "Analysis failed", confidence: 0.0}` and propagates no error. -/
theorem analyze_with_gpt_failure_sentinel (o : GPTOutcome)
    (h : ∀ hasData data hasConfidence confidence,
      o = .dict hasData data hasConfidence confidence →
        hasData = false ∨ hasConfidence = false) :
    analyze_with_gpt o = ⟨"Analysis failed", 0⟩ := by
  cases o with
  | failure => rfl
  | notDict => rfl
  | dict hd d hc c =>
    rcases h hd d hc c rfl with h1 | h1 <;> subst h1 <;> simp [analyze_with_gpt]

/-- Witness for C6: the service-error outcome yields the sentinel. -/
theorem analyze_with_gpt_failure_sentinel_witness :
    analyze_with_gpt .failure = ⟨"Analysis failed", 0⟩ :=
  analyze_with_gpt_failure_sentinel .failure (fun _ _ _ _ h => nomatch h)

/-- C7: for every confidence value in a well-formed service response
(a record with both `data` and `confidence` keys), `analyze_with_gpt`
returns a confidence in `[0, 1]`; a numeric value above 1 is clamped to
1, a numeric value below 0 is clamped to 0, and a non-coercible value
yields 0. -/
theorem analyze_with_gpt_confidence_clamped (data : String) (conf : ConfValue) :
    0 ≤ (analyze_with_gpt (.dict true data true conf)).confidence ∧
    (analyze_with_gpt (.dict true data true conf)).confidence ≤ 1 ∧
    (∀ q : ℚ, conf = .num q → 1 < q →
      (analyze_with_gpt (.dict true data true conf)).confidence = 1) ∧
    (∀ q : ℚ, conf = .num q → q < 0 →
      (analyze_with_gpt (.dict true data true conf)).confidence = 0) ∧
    (∀ s : String, conf = .nonNumeric s →
      (analyze_with_gpt (.dict true data true conf)).confidence = 0) := by
  refine ⟨analyze_conf_nonneg _, analyze_conf_le_one _, ?_, ?_, ?_⟩
  · intro q hq h1
    subst hq
    simp [analyze_with_gpt, coerceClamp, min_eq_left h1.le]
  · intro q hq h0
    subst hq
    simp [analyze_with_gpt, coerceClamp,
      min_eq_right (h0.le.trans zero_le_one), max_eq_left h0.le]
  · intro s hs
    subst hs
    simp [analyze_with_gpt, coerceClamp]

/-- Witness for C7: a reported confidence of 1.5 is clamped to 1, and the
non-numeric confidence `"high"` yields 0. -/
theorem analyze_with_gpt_confidence_clamped_witness :
    (analyze_with_gpt (.dict true "d" true (.num (3/2)))).confidence = 1 ∧
    (analyze_with_gpt (.dict true "d" true (.nonNumeric "high"))).confidence = 0 :=
  ⟨(analyze_with_gpt_confidence_clamped "d" (.num (3/2))).2.2.1 (3/2) rfl (by norm_num),
   (analyze_with_gpt_confidence_clamped "d" (.nonNumeric "high")).2.2.2.2 "high" rfl⟩

/-- C9: for the empty string and for every non-string company name,
`research_company` fails with the `ValueError("Invalid company name
provided")` before any collaborator call: the trace shows zero search
queries and zero text-understanding calls, whatever the environment. -/
theorem research_company_rejects_invalid_before_network (env : Env) :
    research_company env (.str "") =
      ⟨.error "Invalid company name provided", [], 0⟩ ∧
    research_company env .nonString =
      ⟨.error "Invalid company name provided", [], 0⟩ :=
  ⟨rfl, rfl⟩

/-- C3 counterexample: one backend hit with a URL whose page fetch fails
without raising (`fetch_url` returns a falsy value, so `if downloaded:`
is false) is dropped from the result — it is NOT kept with the snippet
as body, contradicting the claim that a failed page fetch never causes
the hit to be dropped. -/
theorem search_web_drops_silent_fetch_failure :
    search_web (fun _ => .noDownload)
      (.success [⟨"http://x.com", "Acme", "snippet"⟩]) 5 = [] := rfl

/-- C3 amended: `search_web` maps each raw backend hit (up to
`maxResults`) independently; for a hit with a URL, a fetch/extraction
that raises an exception keeps the hit with the snippet as body, a
successful download whose extraction yields no text keeps the hit with
the snippet as body, but a download that returns no content without
raising drops the hit entirely. -/
theorem search_web_hit_characterization (fetch : String → FetchOutcome)
    (data : List RawHit) (n : Nat) (r : RawHit) (h : r.url ≠ "") :
    search_web fetch (.success data) n = (data.take n).filterMap (hitOf fetch) ∧
    (fetch r.url = .raises →
      hitOf fetch r = some ⟨r.title, r.description, r.url⟩) ∧
    (fetch r.url = .noDownload → hitOf fetch r = none) ∧
    (∀ t, fetch r.url = .extractedText t →
      hitOf fetch r = some ⟨r.title, if t = "" then r.description else t, r.url⟩) := by
  refine ⟨by simpa using searchStep_foldl fetch (data.take n) [], ?_, ?_, ?_⟩
  · intro hf; simp [hitOf, h, hf]
  · intro hf; simp [hitOf, h, hf]
  · intro t hf; simp [hitOf, h, hf]

/-- Witness for C3 amended: a single hit whose fetch raises is kept with
the snippet as its body. -/
theorem search_web_hit_characterization_witness :
    search_web (fun _ => .raises)
        (.success [⟨"http://x.com", "Acme", "snippet"⟩]) 5 =
      (([⟨"http://x.com", "Acme", "snippet"⟩] : List RawHit).take 5).filterMap
        (hitOf (fun _ => .raises)) ∧
    hitOf (fun _ => .raises) ⟨"http://x.com", "Acme", "snippet"⟩ =
      some ⟨"Acme", "snippet", "http://x.com"⟩ := by
  have h := search_web_hit_characterization (fun _ => .raises)
    [⟨"http://x.com", "Acme", "snippet"⟩] 5 ⟨"http://x.com", "Acme", "snippet"⟩
    (by decide)
  exact ⟨h.1, h.2.1 rfl⟩

/-- C8: if `search_web` returns an empty list for every query template of
a facet, the facet search returns the sentinel
`{data: "No reliable <facet> information found", source: "N/A",
confidence: 0.0}`, for each of profile, sector and objectives. -/
theorem facet_sentinel_when_all_searches_empty (env : Env) (name : String)
    (hp : ∀ q ∈ profileTemplates name, searchWebEnv env q = [])
    (hs : ∀ q ∈ sectorTemplates name, searchWebEnv env q = [])
    (ho : ∀ q ∈ objectivesTemplates name, searchWebEnv env q = []) :
    (search_company_profile env name).result =
      ⟨"No reliable profile information found", "N/A", 0⟩ ∧
    (search_company_sector env name).result =
      ⟨"No reliable sector information found", "N/A", 0⟩ ∧
    (search_company_objectives env name).result =
      ⟨"No reliable objectives information found", "N/A", 0⟩ := by
  refine ⟨?_, ?_, ?_⟩
  · simp only [search_company_profile,
      facetLoop_all_empty env name Facet.profile _ _ hp]
  · simp only [search_company_sector,
      facetLoop_all_empty env name Facet.sector _ _ hs]
  · simp only [search_company_objectives,
      facetLoop_all_empty env name Facet.objectives _ _ ho]

/-- Witness for C8: in the all-failure environment every search is empty
and all three facets return their sentinels. -/
theorem facet_sentinel_when_all_searches_empty_witness :
    (search_company_profile failEnv "Acme").result =
      ⟨"No reliable profile information found", "N/A", 0⟩ ∧
    (search_company_sector failEnv "Acme").result =
      ⟨"No reliable sector information found", "N/A", 0⟩ ∧
    (search_company_objectives failEnv "Acme").result =
      ⟨"No reliable objectives information found", "N/A", 0⟩ :=
  facet_sentinel_when_all_searches_empty failEnv "Acme"
    (fun _ _ => rfl) (fun _ _ => rfl) (fun _ _ => rfl)

/-- C2: for every non-empty company name and every collaborator
behaviour, `research_company` returns a record with all three facet
results present (profile, sector, objectives — none absent), and each
facet result's confidence lies in `[0, 1]`. -/
theorem research_company_complete_and_bounded (env : Env) (s : String)
    (h : s ≠ "") :
    (research_company env (.str s)).result =
      .ok ⟨(search_company_profile env (pyStrip s)).result,
           (search_company_sector env (pyStrip s)).result,
           (search_company_objectives env (pyStrip s)).result⟩ ∧
    (0 ≤ (search_company_profile env (pyStrip s)).result.confidence ∧
      (search_company_profile env (pyStrip s)).result.confidence ≤ 1) ∧
    (0 ≤ (search_company_sector env (pyStrip s)).result.confidence ∧
      (search_company_sector env (pyStrip s)).result.confidence ≤ 1) ∧
    (0 ≤ (search_company_objectives env (pyStrip s)).result.confidence ∧
      (search_company_objectives env (pyStrip s)).result.confidence ≤ 1) := by
  refine ⟨?_, ⟨?_, ?_⟩, ⟨?_, ?_⟩, ⟨?_, ?_⟩⟩
  · simp [research_company, h]
  · exact facetLoop_conf_nonneg env (pyStrip s) Facet.profile _ _
  · exact facetLoop_conf_le_one env (pyStrip s) Facet.profile _ _
  · exact facetLoop_conf_nonneg env (pyStrip s) Facet.sector _ _
  · exact facetLoop_conf_le_one env (pyStrip s) Facet.sector _ _
  · exact facetLoop_conf_nonneg env (pyStrip s) Facet.objectives _ _
  · exact facetLoop_conf_le_one env (pyStrip s) Facet.objectives _ _

/-- Witness for C2: the all-failure environment at company `"Acme"`. -/
theorem research_company_complete_and_bounded_witness :
    (research_company failEnv (.str "Acme")).result =
      .ok ⟨(search_company_profile failEnv (pyStrip "Acme")).result,
           (search_company_sector failEnv (pyStrip "Acme")).result,
           (search_company_objectives failEnv (pyStrip "Acme")).result⟩ ∧
    (0 ≤ (search_company_profile failEnv (pyStrip "Acme")).result.confidence ∧
      (search_company_profile failEnv (pyStrip "Acme")).result.confidence ≤ 1) ∧
    (0 ≤ (search_company_sector failEnv (pyStrip "Acme")).result.confidence ∧
      (search_company_sector failEnv (pyStrip "Acme")).result.confidence ≤ 1) ∧
    (0 ≤ (search_company_objectives failEnv (pyStrip "Acme")).result.confidence ∧
      (search_company_objectives failEnv (pyStrip "Acme")).result.confidence ≤ 1) :=
  research_company_complete_and_bounded failEnv "Acme" (by decide)

/-- C4: for every company name that passes validation (a non-empty
string), `research_company` never raises, whatever the collaborators do:
its result is never an error. -/
theorem research_company_never_raises (env : Env) (s : String) (h : s ≠ "") :
    ∀ msg : String, (research_company env (.str s)).result ≠ .error msg := by
  intro msg
  simp [research_company, h]

/-- Witness for C4: the all-failure environment at company `"Acme"`. -/
theorem research_company_never_raises_witness :
    (research_company failEnv (.str "Acme")).result ≠
      .error "Research failed for Acme" :=
  research_company_never_raises failEnv "Acme" (by decide) "Research failed for Acme"

/-- C10: a whitespace-only company name is non-empty, so validation
(which tests the untrimmed string) passes; the name is then stripped to
the empty string and the three facet searches proceed with the empty
company name. -/
theorem research_company_whitespace_only_passes (env : Env) (s : String)
    (h1 : s ≠ "") (h2 : pyStrip s = "") :
    (research_company env (.str s)).result =
      .ok ⟨(search_company_profile env "").result,
           (search_company_sector env "").result,
           (search_company_objectives env "").result⟩ := by
  simp [research_company, h1, h2]

/-- Witness for C10: the name `"   "` in the all-failure environment. -/
theorem research_company_whitespace_only_passes_witness :
    (research_company failEnv (.str "   ")).result =
      .ok ⟨(search_company_profile failEnv "").result,
           (search_company_sector failEnv "").result,
           (search_company_objectives failEnv "").result⟩ :=
  research_company_whitespace_only_passes failEnv "   " (by decide) (by decide)

/-- C1: in every facet search, the query templates are tried in their
fixed order, and the first template whose search yields a non-empty hit
list and whose extraction confidence is `>= 0.3` is accepted: the loop
returns `{data, source: hits[0].link, confidence}` immediately.  The
trace records that the searched queries are exactly the rejected prefix
followed by the accepted template (no later template is searched), and
that extraction ran once per non-empty prefix search plus once for the
accepted template (no later extraction call is made).  This covers
`search_company_profile`, `search_company_sector` and
`search_company_objectives`, which are this loop at their respective
template lists. -/
theorem facet_search_first_acceptable (env : Env) (company m : String)
    (facet : Facet) (pre post : List String) (q : String)
    (hpre : ∀ t ∈ pre, searchWebEnv env t = [] ∨
      (facetAnalysis env company facet t).confidence < 3/10)
    (hq1 : searchWebEnv env q ≠ [])
    (hq2 : 3/10 ≤ (facetAnalysis env company facet q).confidence) :
    facetLoop env company facet m (pre ++ q :: post) =
      ⟨⟨(facetAnalysis env company facet q).data,
        (searchWebEnv env q).headI.link,
        (facetAnalysis env company facet q).confidence⟩,
       pre ++ [q],
       pre.countP (fun t => !(searchWebEnv env t).isEmpty) + 1⟩ := by
  induction pre with
  | nil =>
    cases hsq : searchWebEnv env q with
    | nil => exact absurd hsq hq1
    | cons hd tl =>
      simp only [facetAnalysis, hsq] at hq2
      simp [facetLoop, hsq, hq2, facetAnalysis]
  | cons t rest ih =>
    have hrest := ih (fun u hu => hpre u (List.mem_cons_of_mem _ hu))
    cases hsq : searchWebEnv env t with
    | nil =>
      simp only [List.cons_append, facetLoop, hsq]
      simp [hrest, List.countP_cons, hsq]
    | cons hd tl =>
      rcases hpre t (List.mem_cons_self _ _) with h1 | h1
      · rw [hsq] at h1; exact absurd h1 (by simp)
      · simp only [facetAnalysis, hsq] at h1
        simp only [List.cons_append, facetLoop, hsq, not_le.mpr h1, if_false]
        simp [hrest, List.countP_cons, hsq]

/-- Witness for C1: in `acceptEnv` the first template `"A"` has an empty
search, the second template `"B"` is accepted with confidence 0.9, and
the third template `"C"` is never searched: the trace shows exactly the
searches `["A", "B"]` and one extraction call. -/
theorem facet_search_first_acceptable_witness :
    facetLoop acceptEnv "Acme" Facet.profile "m" (["A"] ++ "B" :: ["C"]) =
      ⟨⟨"Acme makes widgets", "http://x.com", 9/10⟩, ["A", "B"], 1⟩ := by
  have hmin : min (1 : ℚ) (9/10) = 9/10 := min_eq_right (by norm_num)
  have hmax : max (0 : ℚ) (9/10) = 9/10 := max_eq_right (by norm_num)
  have h := facet_search_first_acceptable acceptEnv "Acme" "m" Facet.profile
    ["A"] ["C"] "B" (by decide) (by decide)
    (by
      simp [facetAnalysis, searchWebEnv, acceptEnv, search_web, searchStep,
        analyze_with_gpt, coerceClamp, hmin, hmax]
      norm_num)
  rw [h]
  simp [facetAnalysis, searchWebEnv, acceptEnv, search_web, searchStep,
    analyze_with_gpt, coerceClamp, hmin, hmax]

end ResearchAgent

namespace ResearchApp

open ResearchAgent

/-- C5 counterexample: the batch loop calls the facet searchers directly
(bypassing `research_company` and its input validation), and they never
raise; with companies `["Acme", ""]` the table has 2 rows, but the
empty-string company's row is a regular row populated in the normal
columns with sentinel facet data — the Error column is never populated,
contradicting the claim. -/
theorem batch_empty_company_row_not_error :
    batchRows failEnv ["Acme", ""] =
      [.ok "Acme" ⟨"No reliable profile information found", "N/A", 0⟩
        ⟨"No reliable sector information found", "N/A", 0⟩
        ⟨"No reliable objectives information found", "N/A", 0⟩,
       .ok "" ⟨"No reliable profile information found", "N/A", 0⟩
        ⟨"No reliable sector information found", "N/A", 0⟩
        ⟨"No reliable objectives information found", "N/A", 0⟩] := rfl

/-- C5 amended: given any list of companies (in particular one valid and
one empty string), the batch result table has exactly one row per
company, and every row — the empty-string company's included — is a
regular row; the Error column is never populated, because the batch loop
calls the facet searchers directly and they absorb all failures. -/
theorem batch_rows_never_error (env : Env) (companies : List String) :
    (batchRows env companies).length = companies.length ∧
    ∀ row ∈ batchRows env companies, row.regular = true := by
  constructor
  · simp [batchRows]
  · intro row hrow
    simp only [batchRows, List.mem_map] at hrow
    obtain ⟨c, _, rfl⟩ := hrow
    rfl

/-- Witness for C5 amended: companies `["Acme", ""]` give a table of 2
rows whose empty-company row is regular. -/
theorem batch_rows_never_error_witness :
    (batchRows failEnv ["Acme", ""]).length = 2 ∧
    (batchRow failEnv "").regular = true := by
  have h := batch_rows_never_error failEnv ["Acme", ""]
  exact ⟨h.1, h.2 (batchRow failEnv "") (by simp [batchRows])⟩

end ResearchApp
